import Mathlib

/-!
Shallow embedding of the `vecmath` package (a 4-component floating-point
vector type).

Float model: the components of a `Vec` are C floats.  We embed float values
as exact rationals extended with the two infinities and NaN.  Arithmetic on
finite values is exact rational arithmetic (the spec's round-trip property is
qualified to hold exactly when the float results are representable, which is
precisely the domain on which IEEE-754 arithmetic agrees with exact rational
arithmetic); the non-finite values follow the IEEE-754 propagation rules, and
comparison is IEEE-754 equality (NaN is not equal to anything, including
itself; the two infinities are equal only to themselves).  Signed zero is not
distinguished, which is invisible to every claim here because IEEE equality
identifies -0.0 with 0.0.
-/

/-- An embedded float value: a finite (exact) rational, an infinity
(`true` is positive infinity, `false` negative infinity), or NaN. -/
inductive F where
  | fin : ℚ → F
  | inf : Bool → F
  | nan : F
deriving DecidableEq, Repr

/-- True exactly on NaN. -/
def F.isNaN : F → Bool
  | .nan => true
  | _ => false

/-- True exactly on finite values. -/
def F.isFinite : F → Bool
  | .fin _ => true
  | _ => false

/-- IEEE negation. -/
def F.neg : F → F
  | .fin q => .fin (-q)
  | .inf s => .inf (!s)
  | .nan => .nan

/-- IEEE addition, exact on finite operands: NaN propagates, an infinity
absorbs finite values, and opposite infinities give NaN. -/
def F.add : F → F → F
  | .nan, _ => .nan
  | .fin a, .fin b => .fin (a + b)
  | .fin _, .inf s => .inf s
  | .fin _, .nan => .nan
  | .inf s, .fin _ => .inf s
  | .inf s, .inf t => if s = t then .inf s else .nan
  | .inf _, .nan => .nan

/-- IEEE subtraction: identical to adding the negation. -/
def F.sub (a b : F) : F := F.add a (F.neg b)

/-- IEEE multiplication, exact on finite operands: NaN propagates, infinity
times zero is NaN, otherwise infinities produce a signed infinity. -/
def F.mul : F → F → F
  | .nan, _ => .nan
  | .fin a, .fin b => .fin (a * b)
  | .fin a, .inf s => if a = 0 then .nan else .inf (s = decide (0 < a))
  | .fin _, .nan => .nan
  | .inf s, .fin b => if b = 0 then .nan else .inf (s = decide (0 < b))
  | .inf s, .inf t => .inf (s = t)
  | .inf _, .nan => .nan

/-- IEEE equality (the Python `==` on two float values): NaN compares false
against everything, infinities compare by sign, finite values exactly. -/
def F.beq : F → F → Bool
  | .fin a, .fin b => decide (a = b)
  | .inf s, .inf t => decide (s = t)
  | _, _ => false

/-- The vector type of `src/vecmath/vec.py` (`class Vec`): four float
components.  The source stores them in fields `_x, _y, _z, _w` and exposes
identity property getters/setters `x, y, z, w`; we name the fields after the
public properties. -/
structure Vec where
  x : F
  y : F
  z : F
  w : F
deriving DecidableEq, Repr

/-- Constructor `Vec.__init__` from `src/vecmath/vec.py`: all components
default to 0.0 when not supplied, and each supplied value is stored
unchanged. -/
def Vec.new (x : F := F.fin 0) (y : F := F.fin 0) (z : F := F.fin 0)
    (w : F := F.fin 0) : Vec :=
  { x := x, y := y, z := z, w := w }

/-- Method `Vec.dot` from `src/vecmath/vec.py`: component-wise product,
returned as a new `Vec`. -/
def Vec.dot (self other : Vec) : Vec :=
  let x := F.mul self.x other.x
  let y := F.mul self.y other.y
  let z := F.mul self.z other.z
  let w := F.mul self.w other.w
  Vec.new x y z w

/-- Method `Vec.add_vec` from `src/vecmath/vec.py`: component-wise sum. -/
def Vec.add_vec (self other : Vec) : Vec :=
  let x := F.add self.x other.x
  let y := F.add self.y other.y
  let z := F.add self.z other.z
  let w := F.add self.w other.w
  Vec.new x y z w

/-- Method `Vec.add_scalar` from `src/vecmath/vec.py`: adds the scalar to
every component. -/
def Vec.add_scalar (self : Vec) (other : F) : Vec :=
  let x := F.add self.x other
  let y := F.add self.y other
  let z := F.add self.z other
  let w := F.add self.w other
  Vec.new x y z w

/-- Method `Vec.sub_vec` from `src/vecmath/vec.py`: component-wise
difference. -/
def Vec.sub_vec (self other : Vec) : Vec :=
  let x := F.sub self.x other.x
  let y := F.sub self.y other.y
  let z := F.sub self.z other.z
  let w := F.sub self.w other.w
  Vec.new x y z w

/-- Method `Vec.sub_scalar` from `src/vecmath/vec.py`: subtracts the scalar
from every component. -/
def Vec.sub_scalar (self : Vec) (other : F) : Vec :=
  let x := F.sub self.x other
  let y := F.sub self.y other
  let z := F.sub self.z other
  let w := F.sub self.w other
  Vec.new x y z w

/-- Method `Vec.__eq__` from `src/vecmath/vec.py`: compares `x`, `y` and `z`
with float equality (the source reads `self.x`, `self.y` via the identity
properties and `self._z` directly; all reads return the stored field).  The
`w` component is not consulted. -/
def Vec.veq (self other : Vec) : Bool :=
  F.beq self.x other.x && F.beq self.y other.y && F.beq self.z other.z

/-- Setter for the `x` property: stores the value, no validation. -/
def Vec.set_x (self : Vec) (value : F) : Vec := { self with x := value }

/-- Setter for the `y` property. -/
def Vec.set_y (self : Vec) (value : F) : Vec := { self with y := value }

/-- Setter for the `z` property. -/
def Vec.set_z (self : Vec) (value : F) : Vec := { self with z := value }

/-- Setter for the `w` property. -/
def Vec.set_w (self : Vec) (value : F) : Vec := { self with w := value }

/-- The empty format specification (Python `""`), used by `__str__`. -/
def emptySpec : String := ""

/-- The separator between formatted components in `__format__`. -/
def compSep : String := ", "

/-- The opening parenthesis of the rendered vector. -/
def lparen : String := "("

/-- The closing parenthesis of the rendered vector. -/
def rparen : String := ")"

/-- Method `Vec.__format__` from `src/vecmath/vec.py`.  The Python body is the
f-string `f"({x:{spec}}, {y:{spec}}, {z:{spec}}, {w:{spec}})"`, which renders
each component with the Python primitive `format(component, spec)` and
concatenates the pieces.  That per-component primitive is the parameter
`fmt` here; the method contributes only the surrounding structure. -/
def Vec.format (fmt : String → F → String) (self : Vec) (spec : String) : String :=
  lparen ++ fmt spec self.x ++ compSep ++ fmt spec self.y ++ compSep
    ++ fmt spec self.z ++ compSep ++ fmt spec self.w ++ rparen

/-- Method `Vec.__str__` from `src/vecmath/vec.py`: calls `__format__` with
the empty specification. -/
def Vec.to_string (fmt : String → F → String) (self : Vec) : String :=
  Vec.format fmt self emptySpec

/-- Joining a list of strings with a separator, written from the spec's
words (the four formatted fields are "joined with a comma-space separator").
Used only as the specification side of the formatting claim. -/
def joinWith (sep : String) : List String → String
  | [] => emptySpec
  | [a] => a
  | a :: b :: rest => a ++ sep ++ joinWith sep (b :: rest)

/-- The spec's description of formatting: each component rendered
individually with the supplied specification, the four fields joined by
comma-space, the whole wrapped in parentheses. -/
def specFormat (fmt : String → F → String) (self : Vec) (spec : String) : String :=
  lparen ++ joinWith compSep
    [fmt spec self.x, fmt spec self.y, fmt spec self.z, fmt spec self.w] ++ rparen

/-- The operand state of a two-vector method call: the receiver and the
argument, modelled explicitly so that (absence of) mutation is visible. -/
structure VecPair where
  self : Vec
  other : Vec
deriving DecidableEq, Repr

/-- The operand state of a vector-scalar method call. -/
structure VecScalar where
  self : Vec
  other : F
deriving DecidableEq, Repr

/-- State-passing embedding of `Vec.dot`: the Python body only binds four
locals from field reads and returns a freshly constructed `Vec`; it contains
no assignment to a field of either operand, so the final operand state is the
initial one. -/
def Vec.dot_run (st : VecPair) : VecPair × Vec :=
  let x := F.mul st.self.x st.other.x
  let y := F.mul st.self.y st.other.y
  let z := F.mul st.self.z st.other.z
  let w := F.mul st.self.w st.other.w
  (st, Vec.new x y z w)

/-- State-passing embedding of `Vec.add_vec` (no field assignments in the
body). -/
def Vec.add_vec_run (st : VecPair) : VecPair × Vec :=
  let x := F.add st.self.x st.other.x
  let y := F.add st.self.y st.other.y
  let z := F.add st.self.z st.other.z
  let w := F.add st.self.w st.other.w
  (st, Vec.new x y z w)

/-- State-passing embedding of `Vec.add_scalar` (no field assignments in the
body). -/
def Vec.add_scalar_run (st : VecScalar) : VecScalar × Vec :=
  let x := F.add st.self.x st.other
  let y := F.add st.self.y st.other
  let z := F.add st.self.z st.other
  let w := F.add st.self.w st.other
  (st, Vec.new x y z w)

/-- State-passing embedding of `Vec.sub_vec` (no field assignments in the
body). -/
def Vec.sub_vec_run (st : VecPair) : VecPair × Vec :=
  let x := F.sub st.self.x st.other.x
  let y := F.sub st.self.y st.other.y
  let z := F.sub st.self.z st.other.z
  let w := F.sub st.self.w st.other.w
  (st, Vec.new x y z w)

/-- State-passing embedding of `Vec.sub_scalar` (no field assignments in the
body). -/
def Vec.sub_scalar_run (st : VecScalar) : VecScalar × Vec :=
  let x := F.sub st.self.x st.other
  let y := F.sub st.self.y st.other
  let z := F.sub st.self.z st.other
  let w := F.sub st.self.w st.other
  (st, Vec.new x y z w)

/-!
Embedding of the second copy of the class, `src/src/vecmath/vec.py`.  Its
method bodies are statement-for-statement those of `src/vecmath/vec.py`
(the copies differ in docstrings, method order, and in some parameter type
annotations, none of which change the computed values in this model, where
all numeric annotations denote the single embedded float type `F`).  It is
embedded separately, over the same carrier `Vec`, so the two can be
compared. -/

/-- Constructor `Vec.__init__` from `src/src/vecmath/vec.py`. -/
def VecB.new (x : F := F.fin 0) (y : F := F.fin 0) (z : F := F.fin 0)
    (w : F := F.fin 0) : Vec :=
  { x := x, y := y, z := z, w := w }

/-- Method `Vec.dot` from `src/src/vecmath/vec.py`. -/
def VecB.dot (self other : Vec) : Vec :=
  let x := F.mul self.x other.x
  let y := F.mul self.y other.y
  let z := F.mul self.z other.z
  let w := F.mul self.w other.w
  VecB.new x y z w

/-- Method `Vec.add_vec` from `src/src/vecmath/vec.py`. -/
def VecB.add_vec (self other : Vec) : Vec :=
  let x := F.add self.x other.x
  let y := F.add self.y other.y
  let z := F.add self.z other.z
  let w := F.add self.w other.w
  VecB.new x y z w

/-- Method `Vec.add_scalar` from `src/src/vecmath/vec.py`. -/
def VecB.add_scalar (self : Vec) (other : F) : Vec :=
  let x := F.add self.x other
  let y := F.add self.y other
  let z := F.add self.z other
  let w := F.add self.w other
  VecB.new x y z w

/-- Method `Vec.sub_vec` from `src/src/vecmath/vec.py`. -/
def VecB.sub_vec (self other : Vec) : Vec :=
  let x := F.sub self.x other.x
  let y := F.sub self.y other.y
  let z := F.sub self.z other.z
  let w := F.sub self.w other.w
  VecB.new x y z w

/-- Method `Vec.sub_scalar` from `src/src/vecmath/vec.py`. -/
def VecB.sub_scalar (self : Vec) (other : F) : Vec :=
  let x := F.sub self.x other
  let y := F.sub self.y other
  let z := F.sub self.z other
  let w := F.sub self.w other
  VecB.new x y z w

/-- Method `Vec.__eq__` from `src/src/vecmath/vec.py`: also compares
`self.x`, `self.y` and `self._z` only. -/
def VecB.veq (self other : Vec) : Bool :=
  F.beq self.x other.x && F.beq self.y other.y && F.beq self.z other.z

/-- Getter of the `x` property from `src/src/vecmath/vec.py`. -/
def VecB.get_x (self : Vec) : F := self.x

/-- Getter of the `y` property. -/
def VecB.get_y (self : Vec) : F := self.y

/-- Getter of the `z` property. -/
def VecB.get_z (self : Vec) : F := self.z

/-- Getter of the `w` property. -/
def VecB.get_w (self : Vec) : F := self.w

/-- Setter of the `x` property from `src/src/vecmath/vec.py`. -/
def VecB.set_x (self : Vec) (value : F) : Vec := { self with x := value }

/-- Setter of the `y` property. -/
def VecB.set_y (self : Vec) (value : F) : Vec := { self with y := value }

/-- Setter of the `z` property. -/
def VecB.set_z (self : Vec) (value : F) : Vec := { self with z := value }

/-- Setter of the `w` property. -/
def VecB.set_w (self : Vec) (value : F) : Vec := { self with w := value }

/-- Method `Vec.__format__` from `src/src/vecmath/vec.py` (the identical
f-string). -/
def VecB.format (fmt : String → F → String) (self : Vec) (spec : String) : String :=
  lparen ++ fmt spec self.x ++ compSep ++ fmt spec self.y ++ compSep
    ++ fmt spec self.z ++ compSep ++ fmt spec self.w ++ rparen

/-- Method `Vec.__str__` from `src/src/vecmath/vec.py`. -/
def VecB.to_string (fmt : String → F → String) (self : Vec) : String :=
  VecB.format fmt self emptySpec

/-- Getter of the `x` property from `src/vecmath/vec.py` (returns the stored
field unchanged). -/
def Vec.get_x (self : Vec) : F := self.x

/-- Getter of the `y` property from `src/vecmath/vec.py`. -/
def Vec.get_y (self : Vec) : F := self.y

/-- Getter of the `z` property from `src/vecmath/vec.py`. -/
def Vec.get_z (self : Vec) : F := self.z

/-- Getter of the `w` property from `src/vecmath/vec.py`. -/
def Vec.get_w (self : Vec) : F := self.w

/-!
Theorems.  Shared helper lemmas about the float model come first, then one
theorem per claim.
-/

/-- Float addition is commutative in this model, NaN and infinities
included. -/
theorem F.add_comm (a b : F) : F.add a b = F.add b a := by
  cases a <;> cases b <;> simp [F.add]
  case fin.fin p q => exact Rat.add_comm p q
  case inf.inf s t =>
    by_cases h : s = t
    · subst h; simp
    · have h2 : ¬t = s := fun hh => h hh.symm
      simp [h, h2]

/-- A float value compares equal to itself exactly when it is not NaN. -/
theorem F.beq_self_iff (a : F) : F.beq a a = true ↔ a.isNaN = false := by
  cases a <;> simp [F.beq, F.isNaN]

/-- When a sum is finite (hence both operands are finite and the arithmetic
is exact), subtracting the second operand again gives back the first, and
the float comparison of the two sides is true. -/
theorem F.add_sub_round_trip (a b : F) (h : (F.add a b).isFinite = true) :
    F.beq (F.sub (F.add a b) b) a = true := by
  cases a <;> cases b <;> simp [F.add, F.isFinite] at h
  case fin.fin p q =>
    simp [F.sub, F.add, F.neg, F.beq, add_neg_cancel_right]
  case inf.inf s t =>
    by_cases hst : s = t <;> simp [hst, F.isFinite] at h

/-- C1: equality compares only the x, y and z components.  For every pair of
vectors, `__eq__` returns true iff the x, y and z components compare equal
under float equality; changing the w component of either side never changes
the result; and concretely `Vec(1,2,3,10) == Vec(1,2,3,999)` is true while
`Vec(1,2,3,0) == Vec(1,2,4,0)` is false. -/
theorem claim_C1 :
    (∀ a b : Vec, Vec.veq a b = true ↔
      (F.beq a.x b.x = true ∧ F.beq a.y b.y = true ∧ F.beq a.z b.z = true))
    ∧ (∀ (a b : Vec) (w1 w2 : F),
        Vec.veq (Vec.set_w a w1) (Vec.set_w b w2) = Vec.veq a b)
    ∧ Vec.veq (Vec.new (F.fin 1) (F.fin 2) (F.fin 3) (F.fin 10))
        (Vec.new (F.fin 1) (F.fin 2) (F.fin 3) (F.fin 999)) = true
    ∧ Vec.veq (Vec.new (F.fin 1) (F.fin 2) (F.fin 3) (F.fin 0))
        (Vec.new (F.fin 1) (F.fin 2) (F.fin 4) (F.fin 0)) = false := by
  refine ⟨fun a b => ?_, fun a b w1 w2 => rfl, ?_, ?_⟩
  · simp [Vec.veq, Bool.and_eq_true, and_assoc]
  · simp [Vec.veq, Vec.new, F.beq]
  · simp [Vec.veq, Vec.new, F.beq]

/-- C2: `dot` returns a vector (not a scalar) whose components are the
component-wise products, and `Vec(100).dot(Vec(100))` has x = 10000 and
y = z = w = 0. -/
theorem claim_C2 :
    (∀ u v : Vec,
      (Vec.dot u v).x = F.mul u.x v.x ∧ (Vec.dot u v).y = F.mul u.y v.y
      ∧ (Vec.dot u v).z = F.mul u.z v.z ∧ (Vec.dot u v).w = F.mul u.w v.w)
    ∧ (Vec.dot (Vec.new (F.fin 100)) (Vec.new (F.fin 100))).x = F.fin 10000
    ∧ (Vec.dot (Vec.new (F.fin 100)) (Vec.new (F.fin 100))).y = F.fin 0
    ∧ (Vec.dot (Vec.new (F.fin 100)) (Vec.new (F.fin 100))).z = F.fin 0
    ∧ (Vec.dot (Vec.new (F.fin 100)) (Vec.new (F.fin 100))).w = F.fin 0 := by
  refine ⟨fun u v => ⟨rfl, rfl, rfl, rfl⟩, ?_, ?_, ?_, ?_⟩
  · simp [Vec.dot, Vec.new, F.mul]
    norm_num
  · simp [Vec.dot, Vec.new, F.mul]
  · simp [Vec.dot, Vec.new, F.mul]
  · simp [Vec.dot, Vec.new, F.mul]

/-- C3: construction defaults omitted trailing arguments to 0.0 — `Vec()`
gives all-zero components, `Vec(3,5,-500)` gives x = 3, y = 5, z = -500,
w = 0 — and construction stores any float value (finite, NaN or infinite)
unchanged, with no failure case (it is a total function). -/
theorem claim_C3 :
    ((Vec.new : Vec).x = F.fin 0 ∧ (Vec.new : Vec).y = F.fin 0
      ∧ (Vec.new : Vec).z = F.fin 0 ∧ (Vec.new : Vec).w = F.fin 0)
    ∧ ((Vec.new (F.fin 3) (F.fin 5) (F.fin (-500)) : Vec).x = F.fin 3
      ∧ (Vec.new (F.fin 3) (F.fin 5) (F.fin (-500)) : Vec).y = F.fin 5
      ∧ (Vec.new (F.fin 3) (F.fin 5) (F.fin (-500)) : Vec).z = F.fin (-500)
      ∧ (Vec.new (F.fin 3) (F.fin 5) (F.fin (-500)) : Vec).w = F.fin 0)
    ∧ (∀ x y z w : F, Vec.new x y z w = { x := x, y := y, z := z, w := w }) :=
  ⟨⟨rfl, rfl, rfl, rfl⟩, ⟨rfl, rfl, rfl, rfl⟩, fun _ _ _ _ => rfl⟩

/-- C4: every arithmetic operation (`add_vec`, `add_scalar`, `sub_vec`,
`sub_scalar`, `dot`), run in the state-passing embedding over arbitrary
operand states (so over all float inputs, NaN and infinities included),
leaves the operand state — hence all four fields of both operands —
unchanged, and returns exactly the freshly constructed vector that the pure
operation describes. -/
theorem claim_C4 :
    ∀ (p : VecPair) (s : VecScalar),
      (Vec.add_vec_run p).1 = p
      ∧ (Vec.add_vec_run p).2 = Vec.add_vec p.self p.other
      ∧ (Vec.add_scalar_run s).1 = s
      ∧ (Vec.add_scalar_run s).2 = Vec.add_scalar s.self s.other
      ∧ (Vec.sub_vec_run p).1 = p
      ∧ (Vec.sub_vec_run p).2 = Vec.sub_vec p.self p.other
      ∧ (Vec.sub_scalar_run s).1 = s
      ∧ (Vec.sub_scalar_run s).2 = Vec.sub_scalar s.self s.other
      ∧ (Vec.dot_run p).1 = p
      ∧ (Vec.dot_run p).2 = Vec.dot p.self p.other :=
  fun _ _ => ⟨rfl, rfl, rfl, rfl, rfl, rfl, rfl, rfl, rfl, rfl⟩

/-- C5: scalar addition acts component-wise — for every vector and scalar,
each component of `add_scalar` is the float sum of the corresponding
component and the scalar. -/
theorem claim_C5 :
    ∀ (v : Vec) (s : F),
      (Vec.add_scalar v s).x = F.add v.x s
      ∧ (Vec.add_scalar v s).y = F.add v.y s
      ∧ (Vec.add_scalar v s).z = F.add v.z s
      ∧ (Vec.add_scalar v s).w = F.add v.w s :=
  fun _ _ => ⟨rfl, rfl, rfl, rfl⟩

/-- C6 counterexample: the claim quantifies over every pair of vectors, but
with a NaN component the defined equality rejects the (identical) sums:
for a = Vec(NaN, 0, 0, 0) and b = Vec(0, 0, 0, 0), the comparison
`a.add_vec(b) == b.add_vec(a)` evaluates to false, because the x components
of both sides are NaN and NaN is not float-equal to itself. -/
theorem claim_C6_counterexample :
    Vec.veq (Vec.add_vec (Vec.new F.nan) (Vec.new : Vec))
      (Vec.add_vec (Vec.new : Vec) (Vec.new F.nan)) = false := by
  simp [Vec.veq, Vec.new, Vec.add_vec, F.add, F.beq]

/-- C6 (amended): vector addition is commutative as an operation — the two
sums agree in all four components, NaN and infinities included — and
whenever none of the x, y, z component sums is NaN, the two sums also
compare equal under the defined equality.  (The original claim fails only
because the defined equality is irreflexive at NaN.) -/
theorem claim_C6 (a b : Vec) :
    Vec.add_vec a b = Vec.add_vec b a
    ∧ ((F.add a.x b.x).isNaN = false → (F.add a.y b.y).isNaN = false →
        (F.add a.z b.z).isNaN = false →
        Vec.veq (Vec.add_vec a b) (Vec.add_vec b a) = true) := by
  have hc : Vec.add_vec a b = Vec.add_vec b a := by
    simp only [Vec.add_vec, Vec.new, Vec.mk.injEq]
    exact ⟨F.add_comm a.x b.x, F.add_comm a.y b.y, F.add_comm a.z b.z,
      F.add_comm a.w b.w⟩
  refine ⟨hc, fun hx hy hz => ?_⟩
  rw [← hc]
  show (F.beq (F.add a.x b.x) (F.add a.x b.x)
      && F.beq (F.add a.y b.y) (F.add a.y b.y)
      && F.beq (F.add a.z b.z) (F.add a.z b.z)) = true
  rw [(F.beq_self_iff _).2 hx, (F.beq_self_iff _).2 hy, (F.beq_self_iff _).2 hz]
  rfl

/-- C6 witness: the amended commutativity at the concrete vectors
Vec(1, 2, 3, 4) and Vec(5, 6, 7, 8), whose component sums are finite. -/
theorem claim_C6_witness :
    Vec.add_vec (Vec.new (F.fin 1) (F.fin 2) (F.fin 3) (F.fin 4))
        (Vec.new (F.fin 5) (F.fin 6) (F.fin 7) (F.fin 8))
      = Vec.add_vec (Vec.new (F.fin 5) (F.fin 6) (F.fin 7) (F.fin 8))
        (Vec.new (F.fin 1) (F.fin 2) (F.fin 3) (F.fin 4))
    ∧ Vec.veq
        (Vec.add_vec (Vec.new (F.fin 1) (F.fin 2) (F.fin 3) (F.fin 4))
          (Vec.new (F.fin 5) (F.fin 6) (F.fin 7) (F.fin 8)))
        (Vec.add_vec (Vec.new (F.fin 5) (F.fin 6) (F.fin 7) (F.fin 8))
          (Vec.new (F.fin 1) (F.fin 2) (F.fin 3) (F.fin 4))) = true :=
  ⟨(claim_C6 (Vec.new (F.fin 1) (F.fin 2) (F.fin 3) (F.fin 4))
      (Vec.new (F.fin 5) (F.fin 6) (F.fin 7) (F.fin 8))).1,
   (claim_C6 (Vec.new (F.fin 1) (F.fin 2) (F.fin 3) (F.fin 4))
      (Vec.new (F.fin 5) (F.fin 6) (F.fin 7) (F.fin 8))).2
     (by simp [Vec.new, F.add, F.isNaN]) (by simp [Vec.new, F.add, F.isNaN])
     (by simp [Vec.new, F.add, F.isNaN])⟩

/-- C7: subtraction undoes addition — whenever the x, y and z component sums
are representable (in this exact model: finite, the domain on which float
arithmetic is exact), `a.add_vec(b).sub_vec(b)` compares equal to `a` under
the defined equality. -/
theorem claim_C7 (a b : Vec)
    (hx : (F.add a.x b.x).isFinite = true)
    (hy : (F.add a.y b.y).isFinite = true)
    (hz : (F.add a.z b.z).isFinite = true) :
    Vec.veq (Vec.sub_vec (Vec.add_vec a b) b) a = true := by
  show (F.beq (F.sub (F.add a.x b.x) b.x) a.x
      && F.beq (F.sub (F.add a.y b.y) b.y) a.y
      && F.beq (F.sub (F.add a.z b.z) b.z) a.z) = true
  rw [F.add_sub_round_trip a.x b.x hx, F.add_sub_round_trip a.y b.y hy,
    F.add_sub_round_trip a.z b.z hz]
  rfl

/-- C7 witness: the round trip at the concrete vectors Vec(1, 2, 3, 4) and
Vec(5, 6, 7, 8), whose component sums are all finite. -/
theorem claim_C7_witness :
    (F.add (F.fin 1) (F.fin 5)).isFinite = true
    ∧ (F.add (F.fin 2) (F.fin 6)).isFinite = true
    ∧ (F.add (F.fin 3) (F.fin 7)).isFinite = true
    ∧ Vec.veq
        (Vec.sub_vec
          (Vec.add_vec (Vec.new (F.fin 1) (F.fin 2) (F.fin 3) (F.fin 4))
            (Vec.new (F.fin 5) (F.fin 6) (F.fin 7) (F.fin 8)))
          (Vec.new (F.fin 5) (F.fin 6) (F.fin 7) (F.fin 8)))
        (Vec.new (F.fin 1) (F.fin 2) (F.fin 3) (F.fin 4)) = true :=
  ⟨rfl, rfl, rfl,
   claim_C7 (Vec.new (F.fin 1) (F.fin 2) (F.fin 3) (F.fin 4))
     (Vec.new (F.fin 5) (F.fin 6) (F.fin 7) (F.fin 8)) rfl rfl rfl⟩

/-- C8: for every per-component renderer, format specification and vector,
`__format__` produces exactly the four individually rendered components
joined by comma-space and wrapped in parentheses (the spec-side description
`specFormat`), and `__str__` is `__format__` applied with the default empty
specification. -/
theorem claim_C8 :
    ∀ (fmt : String → F → String) (v : Vec) (spec : String),
      Vec.format fmt v spec = specFormat fmt v spec
      ∧ Vec.to_string fmt v = Vec.format fmt v emptySpec := by
  intro fmt v spec
  constructor
  · simp [Vec.format, specFormat, joinWith, String.append_assoc]
  · rfl

/-- C9: the two source copies of the class (src/vecmath/vec.py, embedded as
`Vec.*`, and src/src/vecmath/vec.py, embedded as `VecB.*`) agree on every
operation at every input: construction (with and without defaulted
arguments), getters, setters, `add_vec`, `add_scalar`, `sub_vec`,
`sub_scalar`, `dot`, equality, and formatting. -/
theorem claim_C9 :
    (∀ x y z w : F, VecB.new x y z w = Vec.new x y z w)
    ∧ (VecB.new : Vec) = (Vec.new : Vec)
    ∧ (∀ u v : Vec, VecB.dot u v = Vec.dot u v)
    ∧ (∀ u v : Vec, VecB.add_vec u v = Vec.add_vec u v)
    ∧ (∀ (u : Vec) (s : F), VecB.add_scalar u s = Vec.add_scalar u s)
    ∧ (∀ u v : Vec, VecB.sub_vec u v = Vec.sub_vec u v)
    ∧ (∀ (u : Vec) (s : F), VecB.sub_scalar u s = Vec.sub_scalar u s)
    ∧ (∀ u v : Vec, VecB.veq u v = Vec.veq u v)
    ∧ (∀ v : Vec, VecB.get_x v = Vec.get_x v ∧ VecB.get_y v = Vec.get_y v
        ∧ VecB.get_z v = Vec.get_z v ∧ VecB.get_w v = Vec.get_w v)
    ∧ (∀ (v : Vec) (c : F), VecB.set_x v c = Vec.set_x v c
        ∧ VecB.set_y v c = Vec.set_y v c ∧ VecB.set_z v c = Vec.set_z v c
        ∧ VecB.set_w v c = Vec.set_w v c)
    ∧ (∀ (fmt : String → F → String) (v : Vec) (spec : String),
        VecB.format fmt v spec = Vec.format fmt v spec)
    ∧ (∀ (fmt : String → F → String) (v : Vec),
        VecB.to_string fmt v = Vec.to_string fmt v) :=
  ⟨fun _ _ _ _ => rfl, rfl, fun _ _ => rfl, fun _ _ => rfl, fun _ _ => rfl,
   fun _ _ => rfl, fun _ _ => rfl, fun _ _ => rfl,
   fun _ => ⟨rfl, rfl, rfl, rfl⟩, fun _ _ => ⟨rfl, rfl, rfl, rfl⟩,
   fun _ _ _ => rfl, fun _ _ => rfl⟩

/-- C10: equality is reflexive exactly on vectors without NaN among the
compared components — `v == v` is true iff none of the x, y and z components
is NaN — and in particular a vector whose w component is NaN still compares
equal to itself. -/
theorem claim_C10 :
    (∀ v : Vec, Vec.veq v v = true ↔
      (v.x.isNaN = false ∧ v.y.isNaN = false ∧ v.z.isNaN = false))
    ∧ Vec.veq (Vec.new (F.fin 1) (F.fin 2) (F.fin 3) F.nan)
        (Vec.new (F.fin 1) (F.fin 2) (F.fin 3) F.nan) = true := by
  constructor
  · intro v
    simp [Vec.veq, Bool.and_eq_true, and_assoc, F.beq_self_iff]
  · simp [Vec.veq, Vec.new, F.beq]
